/-
Verification of the asynchronous RPC gateway client of the inspection-HMI
repository (src/core/GatewayClient.{h,cpp}, src/core/Types.h).

Shallow embedding conventions:
* C++ `double` / `float` scalar fields are modelled as exact rationals (`Rat`);
  no verified property depends on floating-point rounding.
* `QString` is modelled as `String`, `QByteArray` as `List Nat` (its bytes),
  `QVector<T>` as `List T`.
* `QDateTime` is modelled as `Option Int`: `none` is the null (absent)
  QDateTime, `some s` is a valid QDateTime holding `s` seconds since the epoch
  (the client only ever sets whole seconds via `setSecsSinceEpoch`).
* `std::array<double, 6>` joint arrays are modelled as their list of entries.
* Wire (protobuf) messages are mirrored as `Proto…` structures; an optional
  submessage (C++ `has_x()` / `x()`) is an `Option` field.  Wire enums travel
  as their underlying integer value (`Int`).
* gRPC `Status` is modelled as its error-code integer plus message;
  `Status::ok()` is `code = 0` (`grpc::StatusCode::OK = 0`,
  `grpc::StatusCode::CANCELLED = 1`, the public gRPC numbering).
* Each background worker's observable behaviour (the queued signal emissions)
  is modelled as the list of `GatewayEvent`s it posts, as a function of the
  environment it reads (file reads, stream items, final gRPC status).
-/
import Mathlib

namespace hmi

/-! ## Domain value types (src/core/Types.h) -/

/-- Mirrors proto ErrorCode enum values (`Types.h` lines 31-41). -/
inductive ErrorCode : Type where
  | Unspecified
  | Ok
  | InvalidArgument
  | NotFound
  | Timeout
  | Busy
  | Internal
  | Unavailable
  | Conflict
  deriving DecidableEq, Repr

/-- Numeric values of the `ErrorCode` enumerators as declared in `Types.h`. -/
def ErrorCode.toInt : ErrorCode → Int
  | .Unspecified => 0
  | .Ok => 1
  | .InvalidArgument => 2
  | .NotFound => 3
  | .Timeout => 4
  | .Busy => 5
  | .Internal => 6
  | .Unavailable => 7
  | .Conflict => 8

/-- Lightweight result holder returned by every RPC completion signal
(`Types.h` lines 44-50). -/
structure Result : Type where
  code : ErrorCode := .Unspecified
  message : String := ""
  deriving DecidableEq, Repr

structure Pose2D : Type where
  x : Rat := 0
  y : Rat := 0
  yaw : Rat := 0
  frameId : String := ""
  deriving DecidableEq, Repr

/-- Model of `QVector3D` (default-constructed to the origin). -/
structure Vec3 : Type where
  x : Rat := 0
  y : Rat := 0
  z : Rat := 0
  deriving DecidableEq, Repr

/-- Model of `QQuaternion` (default-constructed to the identity rotation). -/
structure Quat : Type where
  scalar : Rat := 1
  x : Rat := 0
  y : Rat := 0
  z : Rat := 0
  deriving DecidableEq, Repr

structure Pose3D : Type where
  position : Vec3 := {}
  orientation : Quat := {}
  frameId : String := ""
  deriving DecidableEq, Repr

structure SurfacePoint : Type where
  position : Vec3 := {}
  normal : Vec3 := {}
  frameId : String := ""
  faceIndex : Nat := 0
  deriving DecidableEq, Repr

structure ViewHint : Type where
  viewDirection : Vec3 := {}
  rollDeg : Rat := 0
  deriving DecidableEq, Repr

structure MediaRef : Type where
  mediaId : String := ""
  mimeType : String := ""
  sha256 : String := ""
  url : String := ""
  sizeBytes : Nat := 0
  deriving DecidableEq, Repr

structure ImageRef : Type where
  media : MediaRef := {}
  width : Nat := 0
  height : Nat := 0
  thumbnailJpeg : List Nat := []
  deriving DecidableEq, Repr

structure BoundingBox2D : Type where
  x : Int := 0
  y : Int := 0
  w : Int := 0
  h : Int := 0
  deriving DecidableEq, Repr

structure DefectResult : Type where
  hasDefect : Bool := false
  defectType : String := ""
  confidence : Rat := 0
  bbox : BoundingBox2D := {}
  deriving DecidableEq, Repr

structure CaptureConfig : Type where
  cameraId : String := ""
  focusDistanceM : Rat := 0
  fovHDeg : Rat := 0
  fovVDeg : Rat := 0
  maxTiltFromNormalDeg : Rat := 0
  deriving DecidableEq, Repr

structure InspectionTarget : Type where
  pointId : Int := 0
  groupId : String := ""
  surface : SurfacePoint := {}
  view : ViewHint := {}
  deriving DecidableEq, Repr

structure InspectionPoint : Type where
  pointId : Int := 0
  groupId : String := ""
  agvPose : Pose2D := {}
  armPose : Pose3D := {}
  armJointGoal : List Rat := [0, 0, 0, 0, 0, 0]
  expectedQuality : Rat := 0
  planningCost : Rat := 0
  tcpPoseGoal : Pose3D := {}
  cameraPose : Pose3D := {}
  cameraId : String := ""
  deriving DecidableEq, Repr

structure InspectionPath : Type where
  waypoints : List InspectionPoint := []
  totalPoints : Nat := 0
  estimatedDistanceM : Rat := 0
  estimatedDurationS : Rat := 0
  deriving DecidableEq, Repr

structure PlanningWeights : Type where
  wAgvDistance : Rat := 0
  wJointDelta : Rat := 0
  wManipulability : Rat := 0
  wViewError : Rat := 0
  wJointLimit : Rat := 0
  deriving DecidableEq, Repr

structure PlanOptions : Type where
  candidateRadiusM : Rat := 0
  candidateYawStepDeg : Rat := 0
  enableCollisionCheck : Bool := true
  enableTspOptimization : Bool := true
  ikSolver : String := ""
  weights : PlanningWeights := {}
  deriving DecidableEq, Repr

structure PlanningStatistics : Type where
  candidatePoseCount : Nat := 0
  ikSuccessCount : Nat := 0
  collisionFilteredCount : Nat := 0
  planningTimeMs : Rat := 0
  deriving DecidableEq, Repr

/-- Mirrors proto TaskPhase enum values (`Types.h` lines 190-200). -/
inductive TaskPhase : Type where
  | Unspecified
  | Idle
  | Localizing
  | Planning
  | Executing
  | Paused
  | Completed
  | Failed
  | Stopped
  deriving DecidableEq, Repr

structure AgvStatus : Type where
  connected : Bool := false
  arrived : Bool := false
  moving : Bool := false
  stopped : Bool := false
  currentPose : Pose2D := {}
  batteryPercent : Rat := 0
  errorCode : String := ""
  linearVelocityMps : Rat := 0
  angularVelocityRps : Rat := 0
  goalPose : Pose2D := {}
  mapId : String := ""
  localizationQuality : Rat := 0
  deriving DecidableEq, Repr

structure ArmStatus : Type where
  connected : Bool := false
  arrived : Bool := false
  moving : Bool := false
  currentJoints : List Rat := [0, 0, 0, 0, 0, 0]
  manipulability : Rat := 0
  errorCode : String := ""
  servoEnabled : Bool := false
  tcpPose : Pose3D := {}
  basePose : Pose3D := {}
  deriving DecidableEq, Repr

structure TaskStatus : Type where
  taskId : String := ""
  phase : TaskPhase := .Unspecified
  progressPercent : Rat := 0
  currentAction : String := ""
  errorMessage : String := ""
  agv : AgvStatus := {}
  arm : ArmStatus := {}
  updatedAt : Option Int := none
  planId : String := ""
  taskName : String := ""
  currentWaypointIndex : Nat := 0
  currentPointId : Int := 0
  totalWaypoints : Nat := 0
  interlockOk : Bool := false
  interlockMessage : String := ""
  remainingTimeEstS : Rat := 0
  startedAt : Option Int := none
  finishedAt : Option Int := none
  deriving DecidableEq, Repr

/-- Mirrors proto InspectionEventType enum values (`Types.h` lines 255-262). -/
inductive InspectionEventType : Type where
  | Unspecified
  | Info
  | Warn
  | Error
  | Captured
  | DefectFound
  deriving DecidableEq, Repr

structure InspectionEvent : Type where
  taskId : String := ""
  pointId : Int := 0
  type : InspectionEventType := .Unspecified
  message : String := ""
  defect : DefectResult := {}
  timestamp : Option Int := none
  captureId : String := ""
  cameraId : String := ""
  image : ImageRef := {}
  defects : List DefectResult := []
  cameraPose : Pose3D := {}
  deriving DecidableEq, Repr

structure CaptureRecord : Type where
  taskId : String := ""
  pointId : Int := 0
  captureId : String := ""
  cameraId : String := ""
  image : ImageRef := {}
  defects : List DefectResult := []
  capturedAt : Option Int := none
  deriving DecidableEq, Repr

structure NavMapInfo : Type where
  mapId : String := ""
  name : String := ""
  resolutionMPerPixel : Rat := 0
  width : Nat := 0
  height : Nat := 0
  origin : Pose2D := {}
  image : ImageRef := {}
  updatedAt : Option Int := none
  deriving DecidableEq, Repr

structure PlanResponse : Type where
  result : Result := {}
  planId : String := ""
  path : InspectionPath := {}
  stats : PlanningStatistics := {}
  deriving DecidableEq, Repr

structure GetPlanResponse : Type where
  result : Result := {}
  planId : String := ""
  modelId : String := ""
  taskName : String := ""
  options : PlanOptions := {}
  path : InspectionPath := {}
  stats : PlanningStatistics := {}
  createdAt : Option Int := none
  deriving DecidableEq, Repr

/-! ## Wire-side (protobuf) messages and enum values

The generated protobuf schema (`inspection_gateway.proto`) is an external
contract not present under `src/`.  `Types.h` documents each domain enum as
"Mirrors proto … enum values", so the wire numbering of the enums is taken
from the explicit enumerator values written there.  Message structures mirror
exactly the accessors the client code uses. -/

namespace proto

/-- Wire `google.protobuf.Timestamp`. -/
structure Timestamp : Type where
  seconds : Int := 0
  nanos : Int := 0
  deriving DecidableEq, Repr

/-- Wire `ErrorCode` values (mirrored 1:1 by `hmi::ErrorCode` per `Types.h`). -/
def OK : Int := 1

def INVALID_ARGUMENT : Int := 2

def NOT_FOUND : Int := 3

def TIMEOUT : Int := 4

def BUSY : Int := 5

def INTERNAL : Int := 6

def UNAVAILABLE : Int := 7

def CONFLICT : Int := 8

/-- Wire `TaskPhase` values (mirrored 1:1 by `hmi::TaskPhase` per `Types.h`). -/
def IDLE : Int := 1

def LOCALIZING : Int := 2

def PLANNING : Int := 3

def EXECUTING : Int := 4

def PAUSED : Int := 5

def COMPLETED : Int := 6

def FAILED : Int := 7

def STOPPED : Int := 8

/-- Wire `InspectionEventType` values (mirrored 1:1 by
`hmi::InspectionEventType` per `Types.h`). -/
def INFO : Int := 1

def WARN : Int := 2

def ERROR : Int := 3

def CAPTURED : Int := 4

def DEFECT_FOUND : Int := 5

/-- Wire `Result` message: an error-code integer plus a message string. -/
structure PResult : Type where
  code : Int := 0
  message : String := ""
  deriving DecidableEq, Repr

/-- Wire `UploadCadResponse`: application result plus generated model id. -/
structure UploadCadResponse : Type where
  result : PResult := {}
  model_id : String := ""
  deriving DecidableEq, Repr

/-- Wire `MediaChunk` as consumed by `downloadMedia` (only its `data` bytes
are read by the client; remaining schema fields are never consumed). -/
structure MediaChunk : Type where
  data : List Nat := []
  deriving DecidableEq, Repr

structure Pose2D : Type where
  x : Rat := 0
  y : Rat := 0
  yaw : Rat := 0
  frame_id : String := ""
  deriving DecidableEq, Repr

structure Vector3 : Type where
  x : Rat := 0
  y : Rat := 0
  z : Rat := 0
  deriving DecidableEq, Repr

structure Quaternion : Type where
  x : Rat := 0
  y : Rat := 0
  z : Rat := 0
  w : Rat := 0
  deriving DecidableEq, Repr

structure Pose3D : Type where
  position : Option Vector3 := none
  orientation : Option Quaternion := none
  frame_id : String := ""
  deriving DecidableEq, Repr

structure AgvStatus : Type where
  connected : Bool := false
  arrived : Bool := false
  moving : Bool := false
  stopped : Bool := false
  current_pose : Option Pose2D := none
  battery_percent : Rat := 0
  error_code : String := ""
  linear_velocity_mps : Rat := 0
  angular_velocity_rps : Rat := 0
  goal_pose : Option Pose2D := none
  map_id : String := ""
  localization_quality : Rat := 0
  deriving DecidableEq, Repr

structure ArmStatus : Type where
  connected : Bool := false
  arrived : Bool := false
  moving : Bool := false
  manipulability : Rat := 0
  error_code : String := ""
  servo_enabled : Bool := false
  tcp_pose : Option Pose3D := none
  base_pose : Option Pose3D := none
  current_joints : List Rat := []
  deriving DecidableEq, Repr

structure TaskStatus : Type where
  task_id : String := ""
  phase : Int := 0
  progress_percent : Rat := 0
  current_action : String := ""
  error_message : String := ""
  agv : Option AgvStatus := none
  arm : Option ArmStatus := none
  updated_at : Option Timestamp := none
  started_at : Option Timestamp := none
  finished_at : Option Timestamp := none
  plan_id : String := ""
  task_name : String := ""
  current_waypoint_index : Nat := 0
  current_point_id : Int := 0
  total_waypoints : Nat := 0
  interlock_ok : Bool := false
  interlock_message : String := ""
  remaining_time_est_s : Rat := 0
  deriving DecidableEq, Repr

/-- Wire `SystemStateEvent`; the client reads only `ev.status()` (a proto3
submessage accessor, yielding the default instance when unset). -/
structure SystemStateEvent : Type where
  status : TaskStatus := {}
  deriving DecidableEq, Repr

structure BoundingBox2D : Type where
  x : Int := 0
  y : Int := 0
  w : Int := 0
  h : Int := 0
  deriving DecidableEq, Repr

structure DefectResult : Type where
  has_defect : Bool := false
  defect_type : String := ""
  confidence : Rat := 0
  bbox : Option BoundingBox2D := none
  deriving DecidableEq, Repr

structure MediaRef : Type where
  media_id : String := ""
  mime_type : String := ""
  sha256 : String := ""
  url : String := ""
  size_bytes : Nat := 0
  deriving DecidableEq, Repr

structure ImageRef : Type where
  media : Option MediaRef := none
  width : Nat := 0
  height : Nat := 0
  thumbnail_jpeg : List Nat := []
  deriving DecidableEq, Repr

structure InspectionEvent : Type where
  task_id : String := ""
  point_id : Int := 0
  type : Int := 0
  message : String := ""
  defect : Option DefectResult := none
  timestamp : Option Timestamp := none
  capture_id : String := ""
  camera_id : String := ""
  image : Option ImageRef := none
  camera_pose : Option Pose3D := none
  defects : List DefectResult := []
  deriving DecidableEq, Repr

end proto

/-- gRPC `Status`: error-code integer plus the transport's diagnostic text.
`grpc::StatusCode::OK = 0` and `grpc::StatusCode::CANCELLED = 1` (public gRPC
numbering). -/
structure GrpcStatus : Type where
  code : Int := 0
  message : String := ""
  deriving DecidableEq, Repr

def grpcOK : Int := 0

def grpcCANCELLED : Int := 1

/-- `grpc::Status::ok()`: the call completed with status code OK. -/
def GrpcStatus.ok (st : GrpcStatus) : Bool := st.code = grpcOK

/-! ## Result-marshalling helpers (GatewayClient.cpp, anonymous namespace) -/

/-- `fromTimestamp` (`GatewayClient.cpp` lines 53-61): a zero-valued wire
timestamp (both fields zero) becomes the null QDateTime; otherwise the
QDateTime at `seconds` seconds since the epoch (nanos discarded). -/
def fromTimestamp (ts : proto.Timestamp) : Option Int :=
  if ts.seconds = 0 ∧ ts.nanos = 0 then
    none
  else
    some ts.seconds

/-- Modelled from the spec: the client module contains no domain-to-wire
timestamp conversion (only `fromTimestamp` exists in `GatewayClient.cpp`),
yet the spec's §8 round-trip property mentions one.  Faithful to the spec's
words: an absent domain timestamp maps to the zero-valued wire timestamp,
and a present one maps to its whole seconds since the epoch at second
resolution (zero nanos). -/
def toTimestamp : Option Int → proto.Timestamp
  | none => { seconds := 0, nanos := 0 }
  | some s => { seconds := s, nanos := 0 }

/-- `fromProtoError` (`GatewayClient.cpp` lines 66-79): switch over the wire
enum with a `default` arm returning `Unspecified`. -/
def fromProtoError (ec : Int) : ErrorCode :=
  if ec = proto.OK then .Ok
  else if ec = proto.INVALID_ARGUMENT then .InvalidArgument
  else if ec = proto.NOT_FOUND then .NotFound
  else if ec = proto.TIMEOUT then .Timeout
  else if ec = proto.BUSY then .Busy
  else if ec = proto.INTERNAL then .Internal
  else if ec = proto.UNAVAILABLE then .Unavailable
  else if ec = proto.CONFLICT then .Conflict
  else .Unspecified

/-- `fromProtoResult` (`GatewayClient.cpp` lines 81-87). -/
def fromProtoResult (r : proto.PResult) : Result :=
  { code := fromProtoError r.code, message := r.message }

/-- `fromGrpcStatus` (`GatewayClient.cpp` lines 90-100): transport-level
status folded into a `Result` (`Ok`, or `Internal` with the transport's
message). -/
def fromGrpcStatus (st : GrpcStatus) : Result :=
  if st.ok then
    { code := ErrorCode.Ok }
  else
    { code := ErrorCode.Internal, message := st.message }

/-- `fromProtoTaskPhase` (`GatewayClient.cpp` lines 384-397). -/
def fromProtoTaskPhase (ph : Int) : TaskPhase :=
  if ph = proto.IDLE then .Idle
  else if ph = proto.LOCALIZING then .Localizing
  else if ph = proto.PLANNING then .Planning
  else if ph = proto.EXECUTING then .Executing
  else if ph = proto.PAUSED then .Paused
  else if ph = proto.COMPLETED then .Completed
  else if ph = proto.FAILED then .Failed
  else if ph = proto.STOPPED then .Stopped
  else .Unspecified

/-- `fromProtoEventType` (`GatewayClient.cpp` lines 466-476). -/
def fromProtoEventType (et : Int) : InspectionEventType :=
  if et = proto.INFO then .Info
  else if et = proto.WARN then .Warn
  else if et = proto.ERROR then .Error
  else if et = proto.CAPTURED then .Captured
  else if et = proto.DEFECT_FOUND then .DefectFound
  else .Unspecified

/-- `fromProtoPose2D` (`GatewayClient.cpp` lines 105-113). -/
def fromProtoPose2D (p : proto.Pose2D) : Pose2D :=
  { x := p.x, y := p.y, yaw := p.yaw, frameId := p.frame_id }

/-- `fromProtoPose3D` (`GatewayClient.cpp` lines 125-144): submessages are
copied only when present (`has_position` / `has_orientation`), the domain
defaults remain otherwise; `QQuaternion(scalar, x, y, z)` takes `w` first. -/
def fromProtoPose3D (p : proto.Pose3D) : Pose3D :=
  { position :=
      match p.position with
      | some v => { x := v.x, y := v.y, z := v.z }
      | none => {}
    orientation :=
      match p.orientation with
      | some q => { scalar := q.w, x := q.x, y := q.y, z := q.z }
      | none => {}
    frameId := p.frame_id }

/-- Defensive copy of a repeated-double joint array into the 6-entry
domain-side array: `std::min(size, 6)` wire entries are copied, remaining
entries stay at the domain default `0` (`GatewayClient.cpp` lines 351-354 and
432-435). -/
def fillJoints6 (ws : List Rat) : List Rat :=
  ws.take 6 ++ List.replicate (6 - ws.length) 0

/-- `fromProtoAgvStatus` (`GatewayClient.cpp` lines 402-418). -/
def fromProtoAgvStatus (a : proto.AgvStatus) : AgvStatus :=
  { connected := a.connected
    arrived := a.arrived
    moving := a.moving
    stopped := a.stopped
    currentPose :=
      match a.current_pose with
      | some p => fromProtoPose2D p
      | none => {}
    batteryPercent := a.battery_percent
    errorCode := a.error_code
    linearVelocityMps := a.linear_velocity_mps
    angularVelocityRps := a.angular_velocity_rps
    goalPose :=
      match a.goal_pose with
      | some p => fromProtoPose2D p
      | none => {}
    mapId := a.map_id
    localizationQuality := a.localization_quality }

/-- `fromProtoArmStatus` (`GatewayClient.cpp` lines 420-437). -/
def fromProtoArmStatus (a : proto.ArmStatus) : ArmStatus :=
  { connected := a.connected
    arrived := a.arrived
    moving := a.moving
    currentJoints := fillJoints6 a.current_joints
    manipulability := a.manipulability
    errorCode := a.error_code
    servoEnabled := a.servo_enabled
    tcpPose :=
      match a.tcp_pose with
      | some p => fromProtoPose3D p
      | none => {}
    basePose :=
      match a.base_pose with
      | some p => fromProtoPose3D p
      | none => {} }

/-- `fromProtoTaskStatus` (`GatewayClient.cpp` lines 439-461). -/
def fromProtoTaskStatus (ts : proto.TaskStatus) : TaskStatus :=
  { taskId := ts.task_id
    phase := fromProtoTaskPhase ts.phase
    progressPercent := ts.progress_percent
    currentAction := ts.current_action
    errorMessage := ts.error_message
    agv :=
      match ts.agv with
      | some a => fromProtoAgvStatus a
      | none => {}
    arm :=
      match ts.arm with
      | some a => fromProtoArmStatus a
      | none => {}
    updatedAt :=
      match ts.updated_at with
      | some t => fromTimestamp t
      | none => none
    startedAt :=
      match ts.started_at with
      | some t => fromTimestamp t
      | none => none
    finishedAt :=
      match ts.finished_at with
      | some t => fromTimestamp t
      | none => none
    planId := ts.plan_id
    taskName := ts.task_name
    currentWaypointIndex := ts.current_waypoint_index
    currentPointId := ts.current_point_id
    totalWaypoints := ts.total_waypoints
    interlockOk := ts.interlock_ok
    interlockMessage := ts.interlock_message
    remainingTimeEstS := ts.remaining_time_est_s }

/-- `fromProtoBbox` (`GatewayClient.cpp` lines 252-255). -/
def fromProtoBbox (bb : proto.BoundingBox2D) : BoundingBox2D :=
  { x := bb.x, y := bb.y, w := bb.w, h := bb.h }

/-- `fromProtoDefectResult` (`GatewayClient.cpp` lines 257-267). -/
def fromProtoDefectResult (dr : proto.DefectResult) : DefectResult :=
  { hasDefect := dr.has_defect
    defectType := dr.defect_type
    confidence := dr.confidence
    bbox :=
      match dr.bbox with
      | some bb => fromProtoBbox bb
      | none => {} }

/-- `fromProtoMediaRef` (`GatewayClient.cpp` lines 225-234). -/
def fromProtoMediaRef (m : proto.MediaRef) : MediaRef :=
  { mediaId := m.media_id
    mimeType := m.mime_type
    sha256 := m.sha256
    url := m.url
    sizeBytes := m.size_bytes }

/-- `fromProtoImageRef` (`GatewayClient.cpp` lines 236-247). -/
def fromProtoImageRef (img : proto.ImageRef) : ImageRef :=
  { media :=
      match img.media with
      | some m => fromProtoMediaRef m
      | none => {}
    width := img.width
    height := img.height
    thumbnailJpeg := img.thumbnail_jpeg }

/-- `fromProtoInspectionEvent` (`GatewayClient.cpp` lines 481-498). -/
def fromProtoInspectionEvent (ev : proto.InspectionEvent) : InspectionEvent :=
  { taskId := ev.task_id
    pointId := ev.point_id
    type := fromProtoEventType ev.type
    message := ev.message
    defect :=
      match ev.defect with
      | some d => fromProtoDefectResult d
      | none => {}
    timestamp :=
      match ev.timestamp with
      | some t => fromTimestamp t
      | none => none
    captureId := ev.capture_id
    cameraId := ev.camera_id
    image :=
      match ev.image with
      | some i => fromProtoImageRef i
      | none => {}
    cameraPose :=
      match ev.camera_pose with
      | some p => fromProtoPose3D p
      | none => {}
    defects := ev.defects.map fromProtoDefectResult }

/-! ## Observable outcomes: the client's Qt signals

Every queued emission of `GatewayClient` (via `QMetaObject::invokeMethod`
with `Qt::QueuedConnection`) is one `GatewayEvent`.  Constructors mirror the
signal declarations in `GatewayClient.h` lines 78-116. -/

inductive GatewayEvent : Type where
  | connectionStateChanged (connected : Bool)
  | errorOccurred (error : String)
  | uploadCadProgress (percent : Nat)
  | uploadCadFinished (result : Result) (modelId : String)
  | setTargetsFinished (result : Result) (totalTargets : Nat)
  | planInspectionFinished (response : PlanResponse)
  | getPlanFinished (response : GetPlanResponse)
  | startInspectionFinished (result : Result) (taskId : String)
  | controlTaskFinished (result : Result)
  | taskStatusReceived (status : TaskStatus)
  | systemStateReceived (status : TaskStatus)
  | inspectionEventReceived (event : InspectionEvent)
  | navMapReceived (result : Result) (mapInfo : NavMapInfo)
  | capturesReceived (result : Result) (captures : List CaptureRecord)
  | mediaDownloaded (mediaId : String) (data : List Nat)
  deriving DecidableEq, Repr

/-- The `Result` carried by an outcome signal, when the signal carries one.
`errorOccurred`, progress and per-item stream signals carry none. -/
def eventResult : GatewayEvent → Option Result
  | .uploadCadFinished r _ => some r
  | .setTargetsFinished r _ => some r
  | .planInspectionFinished resp => some resp.result
  | .getPlanFinished resp => some resp.result
  | .startInspectionFinished r _ => some r
  | .controlTaskFinished r => some r
  | .navMapReceived r _ => some r
  | .capturesReceived r _ => some r
  | _ => none

/-- Whether an outcome signal carries a `Result` classified `Unavailable`. -/
def carriesUnavailable (e : GatewayEvent) : Bool :=
  match eventResult e with
  | some r => decide (r.code = ErrorCode.Unavailable)
  | none => false

def isErrorOccurred : GatewayEvent → Bool
  | .errorOccurred _ => true
  | _ => false

def isUploadCadFinished : GatewayEvent → Bool
  | .uploadCadFinished _ _ => true
  | _ => false

def isMediaDownloaded : GatewayEvent → Bool
  | .mediaDownloaded _ _ => true
  | _ => false

/-- The progress percentage of an `uploadCadProgress` emission. -/
def progressPct : GatewayEvent → Option Nat
  | .uploadCadProgress p => some p
  | _ => none

/-! ## Connection-manager state and one-shot dispatch

The shared state that decides dispatch: the current address, whether the
Session (channel + stub) exists (`m_stub` non-null), and the last-observed
liveness flag (`m_connected`).  Thread bookkeeping (`m_workers`, the monitor
and streaming threads) is not value-observable and enters the model only
through whether a worker is spawned. -/

structure ClientState : Type where
  address : String := ""
  hasStub : Bool := false
  connected : Bool := false
  deriving DecidableEq, Repr

/-- What a public one-shot slot does on the caller's thread: either it
synchronously posts the given outcomes through the queued delivery path and
returns (no worker spawned, no network attempt), or it spawns a worker
thread to perform the RPC. -/
inductive Dispatch : Type where
  | emitNow (events : List GatewayEvent)
  | spawnWorker
  deriving DecidableEq, Repr

/-- Outcomes posted synchronously at dispatch time (empty when a worker is
spawned: that worker's emissions are modelled separately). -/
def Dispatch.immediateEvents : Dispatch → List GatewayEvent
  | .emitNow evs => evs
  | .spawnWorker => []

namespace GatewayClient

/-- `isConnected` (`GatewayClient.cpp` lines 578-581): relaxed atomic read of
the liveness flag. -/
def isConnected (s : ClientState) : Bool := s.connected

/-- `currentAddress` (`GatewayClient.cpp` lines 583-587). -/
def currentAddress (s : ClientState) : String := s.address

/-- `disconnectFromGateway` (`GatewayClient.cpp` lines 610-626): cancels and
joins all subscriptions, stops the monitor, joins workers, clears stub /
channel / address, and emits `connectionStateChanged(false)` exactly when
`m_connected.exchange(false)` returned `true`.  Returns the new state and
the queued emissions. -/
def disconnectFromGateway (s : ClientState) : ClientState × List GatewayEvent :=
  ({ address := "", hasStub := false, connected := false },
   if s.connected then [.connectionStateChanged false] else [])

/-- `uploadCad` dispatch (`GatewayClient.cpp` lines 733-845): no stub means a
synchronous `Unavailable` outcome with empty model id; otherwise a worker is
spawned. -/
def uploadCad (s : ClientState) (filePath : String) : Dispatch :=
  if s.hasStub then .spawnWorker
  else .emitNow
    [.uploadCadFinished { code := .Unavailable, message := "Not connected" } ""]

/-- `setInspectionTargets` dispatch (`GatewayClient.cpp` lines 851-904). -/
def setInspectionTargets (s : ClientState) (modelId : String)
    (targets : List InspectionTarget) (config : CaptureConfig)
    (operatorId : String) : Dispatch :=
  if s.hasStub then .spawnWorker
  else .emitNow
    [.setTargetsFinished { code := .Unavailable, message := "Not connected" } 0]

/-- `planInspection` dispatch (`GatewayClient.cpp` lines 910-960). -/
def planInspection (s : ClientState) (modelId : String) (taskName : String)
    (options : PlanOptions) : Dispatch :=
  if s.hasStub then .spawnWorker
  else .emitNow
    [.planInspectionFinished
      { result := { code := .Unavailable, message := "Not connected" } }]

/-- `getPlan` dispatch (`GatewayClient.cpp` lines 966-1016). -/
def getPlan (s : ClientState) (planId : String) : Dispatch :=
  if s.hasStub then .spawnWorker
  else .emitNow
    [.getPlanFinished
      { result := { code := .Unavailable, message := "Not connected" } }]

/-- `startInspection` dispatch (`GatewayClient.cpp` lines 1022-1067). -/
def startInspection (s : ClientState) (planId : String) (dryRun : Bool) :
    Dispatch :=
  if s.hasStub then .spawnWorker
  else .emitNow
    [.startInspectionFinished
      { code := .Unavailable, message := "Not connected" } ""]

/-- `pauseInspection` dispatch (`GatewayClient.cpp` lines 1116-1135). -/
def pauseInspection (s : ClientState) (taskId : String) (reason : String) :
    Dispatch :=
  if s.hasStub then .spawnWorker
  else .emitNow
    [.controlTaskFinished { code := .Unavailable, message := "Not connected" }]

/-- `resumeInspection` dispatch (`GatewayClient.cpp` lines 1137-1156). -/
def resumeInspection (s : ClientState) (taskId : String) (reason : String) :
    Dispatch :=
  if s.hasStub then .spawnWorker
  else .emitNow
    [.controlTaskFinished { code := .Unavailable, message := "Not connected" }]

/-- `stopInspection` dispatch (`GatewayClient.cpp` lines 1158-1177). -/
def stopInspection (s : ClientState) (taskId : String) (reason : String) :
    Dispatch :=
  if s.hasStub then .spawnWorker
  else .emitNow
    [.controlTaskFinished { code := .Unavailable, message := "Not connected" }]

/-- `getTaskStatus` dispatch (`GatewayClient.cpp` lines 1183-1226): with no
stub it posts a plain `errorOccurred` string, not a `Result`-bearing
outcome. -/
def getTaskStatus (s : ClientState) (taskId : String) : Dispatch :=
  if s.hasStub then .spawnWorker
  else .emitNow [.errorOccurred "GetTaskStatus: not connected"]

/-- `getNavMap` dispatch (`GatewayClient.cpp` lines 1360-1408). -/
def getNavMap (s : ClientState) (mapId : String) : Dispatch :=
  if s.hasStub then .spawnWorker
  else .emitNow
    [.navMapReceived { code := .Unavailable, message := "Not connected" } {}]

/-- `listCaptures` dispatch (`GatewayClient.cpp` lines 1414-1463). -/
def listCaptures (s : ClientState) (taskId : String) (pointId : Int) :
    Dispatch :=
  if s.hasStub then .spawnWorker
  else .emitNow
    [.capturesReceived { code := .Unavailable, message := "Not connected" } []]

/-! ## Worker emission models

Each worker's queued emissions as a function of what it reads from its
environment: the file system, the write outcomes, the stream items and the
final gRPC status. -/

/-- The single terminal emission of the upload worker once the chunk loop is
over (`GatewayClient.cpp` lines 823-837): on OK status the application result
and model id from the response, otherwise the transport failure folded by
`fromGrpcStatus` with an empty model id. -/
def uploadFinishEvent (st : GrpcStatus) (resp : proto.UploadCadResponse) :
    GatewayEvent :=
  if st.ok then .uploadCadFinished (fromProtoResult resp.result) resp.model_id
  else .uploadCadFinished (fromGrpcStatus st) ""

/-- The upload worker's chunk loop (`GatewayClient.cpp` lines 786-821).
`reads` are the byte counts of the successive `file.read(64 KB)` calls made
while `!file.atEnd()` (an entry `0` models a read that returned empty, which
breaks the loop); `writeOk i` tells whether `writer->Write` of chunk `i`
succeeded; `total` is `file.size()`.  After each successful write, when
`total > 0`, the integer percentage `bytesSent * 100 / total` is emitted iff
it differs from the previously emitted one (`lastPercent`, initially -1). -/
def uploadCadChunkLoop (writeOk : Nat → Bool) (total : Nat) (st : GrpcStatus)
    (resp : proto.UploadCadResponse) :
    List Nat → Nat → Nat → Int → List GatewayEvent
  | [], _, _, _ => [uploadFinishEvent st resp]
  | sz :: rest, bytesSent, chunkIndex, lastPercent =>
    if sz = 0 then [uploadFinishEvent st resp]
    else if writeOk chunkIndex = false then
      [.uploadCadFinished
        { code := .Internal
          message := "Stream write failed at chunk " ++ toString chunkIndex }
        ""]
    else if 0 < total then
      if (((bytesSent + sz) * 100 / total : Nat) : Int) ≠ lastPercent then
        .uploadCadProgress ((bytesSent + sz) * 100 / total) ::
          uploadCadChunkLoop writeOk total st resp rest (bytesSent + sz)
            (chunkIndex + 1) (((bytesSent + sz) * 100 / total : Nat) : Int)
      else
        uploadCadChunkLoop writeOk total st resp rest (bytesSent + sz)
          (chunkIndex + 1) lastPercent
    else
      uploadCadChunkLoop writeOk total st resp rest (bytesSent + sz)
        (chunkIndex + 1) lastPercent

/-- The upload worker (`GatewayClient.cpp` lines 755-838): an unopenable file
yields a single synchronous `InvalidArgument` outcome; otherwise the chunk
loop runs with `bytesSent = 0`, `chunkIndex = 0`, `lastPercent = -1`. -/
def uploadCadWorker (path : String) (canOpen : Bool) (reads : List Nat)
    (writeOk : Nat → Bool) (total : Nat) (st : GrpcStatus)
    (resp : proto.UploadCadResponse) : List GatewayEvent :=
  if canOpen = false then
    [.uploadCadFinished
      { code := .InvalidArgument, message := "Cannot open file: " ++ path } ""]
  else
    uploadCadChunkLoop writeOk total st resp reads 0 0 (-1)

/-- The system-state subscription worker (`GatewayClient.cpp` lines
1258-1290): each received wire event is converted and forwarded; after the
stream ends, a single generic error is posted unless the final status is OK
or CANCELLED. -/
def subscribeSystemStateWorker (items : List proto.SystemStateEvent)
    (st : GrpcStatus) : List GatewayEvent :=
  items.map (fun ev => .systemStateReceived (fromProtoTaskStatus ev.status)) ++
    (if st.ok = false ∧ st.code ≠ grpcCANCELLED then
      [.errorOccurred ("SubscribeSystemState ended: " ++ st.message)]
    else [])

/-- The inspection-events subscription worker (`GatewayClient.cpp` lines
1322-1353). -/
def subscribeInspectionEventsWorker (items : List proto.InspectionEvent)
    (st : GrpcStatus) : List GatewayEvent :=
  items.map (fun ev => .inspectionEventReceived (fromProtoInspectionEvent ev)) ++
    (if st.ok = false ∧ st.code ≠ grpcCANCELLED then
      [.errorOccurred ("SubscribeInspectionEvents ended: " ++ st.message)]
    else [])

/-- The media-download worker (`GatewayClient.cpp` lines 1498-1529): all
received chunks' bytes are accumulated in receipt order; on OK termination
the single assembled payload is posted, on CANCELLED nothing, on any other
failure a single generic error. -/
def downloadMediaWorker (mediaId : String) (chunks : List proto.MediaChunk)
    (st : GrpcStatus) : List GatewayEvent :=
  let assembled := (chunks.map proto.MediaChunk.data).flatten
  if st.ok then [.mediaDownloaded mediaId assembled]
  else if st.code ≠ grpcCANCELLED then
    [.errorOccurred ("DownloadMedia failed: " ++ st.message)]
  else []

end GatewayClient

/-! ## Verified properties -/

/-- C3: a wire timestamp with both fields zero converts to the absent domain
value (the null QDateTime), not the zero-epoch instant; a wire timestamp with
non-zero seconds round-trips through the domain back to the same
second-resolution instant; and the absent domain timestamp round-trips
through the wire format back to absent. -/
theorem fromTimestamp_absent_and_roundTrip :
    (∀ ts : proto.Timestamp, ts.seconds = 0 → ts.nanos = 0 →
      fromTimestamp ts = none) ∧
    (∀ ts : proto.Timestamp, ts.seconds ≠ 0 →
      toTimestamp (fromTimestamp ts) = { seconds := ts.seconds, nanos := 0 }) ∧
    fromTimestamp (toTimestamp none) = none := by
  refine ⟨?_, ?_, rfl⟩
  · intro ts h0 h1
    simp [fromTimestamp, h0, h1]
  · intro ts h
    simp [fromTimestamp, toTimestamp, h]

/-- C3 witness: the round trip evaluated at concrete wire timestamps. -/
theorem fromTimestamp_absent_and_roundTrip_witness :
    fromTimestamp { seconds := 0, nanos := 0 } = none ∧
    toTimestamp (fromTimestamp { seconds := 1700000000, nanos := 123 }) =
      { seconds := 1700000000, nanos := 0 } ∧
    fromTimestamp (toTimestamp none) = none :=
  ⟨fromTimestamp_absent_and_roundTrip.1 { seconds := 0, nanos := 0 } rfl rfl,
   fromTimestamp_absent_and_roundTrip.2.1 { seconds := 1700000000, nanos := 123 }
     (by decide),
   fromTimestamp_absent_and_roundTrip.2.2⟩

/-- C10: with seconds zero but nanos non-zero, `fromTimestamp` yields the
present epoch-zero instant (the absent mapping keys on both fields being
zero), and every conversion discards sub-second precision: the domain value
is either absent or exactly the wire seconds. -/
theorem fromTimestamp_zeroSeconds_nonzeroNanos :
    (∀ n : Int, n ≠ 0 → fromTimestamp { seconds := 0, nanos := n } = some 0) ∧
    (∀ ts : proto.Timestamp,
      fromTimestamp ts = none ∨ fromTimestamp ts = some ts.seconds) := by
  constructor
  · intro n hn
    simp [fromTimestamp, hn]
  · intro ts
    unfold fromTimestamp
    split
    · exact Or.inl rfl
    · exact Or.inr rfl

/-- C10 witness: evaluated at a concrete nanos-only wire timestamp. -/
theorem fromTimestamp_zeroSeconds_nonzeroNanos_witness :
    fromTimestamp { seconds := 0, nanos := 5 } = some 0 ∧
    (fromTimestamp { seconds := 7, nanos := 999999999 } = none ∨
      fromTimestamp { seconds := 7, nanos := 999999999 } = some 7) :=
  ⟨fromTimestamp_zeroSeconds_nonzeroNanos.1 5 (by decide),
   fromTimestamp_zeroSeconds_nonzeroNanos.2 { seconds := 7, nanos := 999999999 }⟩

/-- C4: each wire enum conversion maps every known wire value to its 1:1
mirrored domain value and every wire value outside the known set to
`Unspecified`, for error codes, task phases and event types alike. -/
theorem protoEnum_known_and_fallback :
    (fromProtoError proto.OK = .Ok ∧
     fromProtoError proto.INVALID_ARGUMENT = .InvalidArgument ∧
     fromProtoError proto.NOT_FOUND = .NotFound ∧
     fromProtoError proto.TIMEOUT = .Timeout ∧
     fromProtoError proto.BUSY = .Busy ∧
     fromProtoError proto.INTERNAL = .Internal ∧
     fromProtoError proto.UNAVAILABLE = .Unavailable ∧
     fromProtoError proto.CONFLICT = .Conflict ∧
     ∀ ec : Int,
       ec ∉ ([proto.OK, proto.INVALID_ARGUMENT, proto.NOT_FOUND, proto.TIMEOUT,
              proto.BUSY, proto.INTERNAL, proto.UNAVAILABLE,
              proto.CONFLICT] : List Int) →
       fromProtoError ec = .Unspecified) ∧
    (fromProtoTaskPhase proto.IDLE = .Idle ∧
     fromProtoTaskPhase proto.LOCALIZING = .Localizing ∧
     fromProtoTaskPhase proto.PLANNING = .Planning ∧
     fromProtoTaskPhase proto.EXECUTING = .Executing ∧
     fromProtoTaskPhase proto.PAUSED = .Paused ∧
     fromProtoTaskPhase proto.COMPLETED = .Completed ∧
     fromProtoTaskPhase proto.FAILED = .Failed ∧
     fromProtoTaskPhase proto.STOPPED = .Stopped ∧
     ∀ ph : Int,
       ph ∉ ([proto.IDLE, proto.LOCALIZING, proto.PLANNING, proto.EXECUTING,
              proto.PAUSED, proto.COMPLETED, proto.FAILED,
              proto.STOPPED] : List Int) →
       fromProtoTaskPhase ph = .Unspecified) ∧
    (fromProtoEventType proto.INFO = .Info ∧
     fromProtoEventType proto.WARN = .Warn ∧
     fromProtoEventType proto.ERROR = .Error ∧
     fromProtoEventType proto.CAPTURED = .Captured ∧
     fromProtoEventType proto.DEFECT_FOUND = .DefectFound ∧
     ∀ et : Int,
       et ∉ ([proto.INFO, proto.WARN, proto.ERROR, proto.CAPTURED,
              proto.DEFECT_FOUND] : List Int) →
       fromProtoEventType et = .Unspecified) := by
  refine ⟨⟨by decide, by decide, by decide, by decide, by decide, by decide,
           by decide, by decide, ?_⟩,
          ⟨by decide, by decide, by decide, by decide, by decide, by decide,
           by decide, by decide, ?_⟩,
          ⟨by decide, by decide, by decide, by decide, by decide, ?_⟩⟩
  · intro ec h
    simp only [List.mem_cons, List.not_mem_nil, or_false, not_or] at h
    obtain ⟨h1, h2, h3, h4, h5, h6, h7, h8⟩ := h
    simp [fromProtoError, h1, h2, h3, h4, h5, h6, h7, h8]
  · intro ph h
    simp only [List.mem_cons, List.not_mem_nil, or_false, not_or] at h
    obtain ⟨h1, h2, h3, h4, h5, h6, h7, h8⟩ := h
    simp [fromProtoTaskPhase, h1, h2, h3, h4, h5, h6, h7, h8]
  · intro et h
    simp only [List.mem_cons, List.not_mem_nil, or_false, not_or] at h
    obtain ⟨h1, h2, h3, h4, h5⟩ := h
    simp [fromProtoEventType, h1, h2, h3, h4, h5]

/-- C4 witness: the fallback evaluated at concrete out-of-set wire values. -/
theorem protoEnum_known_and_fallback_witness :
    fromProtoError 999 = .Unspecified ∧
    fromProtoTaskPhase (-3) = .Unspecified ∧
    fromProtoEventType 42 = .Unspecified :=
  ⟨protoEnum_known_and_fallback.1.2.2.2.2.2.2.2.2 999 (by decide),
   protoEnum_known_and_fallback.2.1.2.2.2.2.2.2.2.2 (-3) (by decide),
   protoEnum_known_and_fallback.2.2.2.2.2.2.2 42 (by decide)⟩

/-- C1 counterexample: with no Session, `getTaskStatus` posts a plain
`errorOccurred` string through the delivery path; its single emission carries
no `Result` at all, so no outcome with code `Unavailable` is delivered, and
the claim fails at this operation. -/
theorem getTaskStatus_noSession_counterexample :
    GatewayClient.getTaskStatus {} "task-1" =
      .emitNow [.errorOccurred "GetTaskStatus: not connected"] ∧
    eventResult (.errorOccurred "GetTaskStatus: not connected") = none ∧
    ¬ ((GatewayClient.getTaskStatus {} "task-1").immediateEvents.countP
        carriesUnavailable = 1) := by
  refine ⟨rfl, rfl, by decide⟩

/-- C1 (amended): with no Session, every one-shot operation except
`getTaskStatus` synchronously posts, without spawning a worker, exactly one
outcome carrying an `Unavailable` `Result` (message "Not connected") and the
operation's zero-value payload; `getTaskStatus` instead synchronously posts
exactly one generic `errorOccurred` notification, equally without spawning a
worker or attempting the network. -/
theorem noSession_shortCircuit (s : ClientState) (h : s.hasStub = false)
    (filePath modelId operatorId taskName planId taskId reason mapId : String)
    (targets : List InspectionTarget) (config : CaptureConfig)
    (options : PlanOptions) (dryRun : Bool) (pointId : Int) :
    GatewayClient.uploadCad s filePath =
      .emitNow [.uploadCadFinished
        { code := .Unavailable, message := "Not connected" } ""] ∧
    GatewayClient.setInspectionTargets s modelId targets config operatorId =
      .emitNow [.setTargetsFinished
        { code := .Unavailable, message := "Not connected" } 0] ∧
    GatewayClient.planInspection s modelId taskName options =
      .emitNow [.planInspectionFinished
        { result := { code := .Unavailable, message := "Not connected" } }] ∧
    GatewayClient.getPlan s planId =
      .emitNow [.getPlanFinished
        { result := { code := .Unavailable, message := "Not connected" } }] ∧
    GatewayClient.startInspection s planId dryRun =
      .emitNow [.startInspectionFinished
        { code := .Unavailable, message := "Not connected" } ""] ∧
    GatewayClient.pauseInspection s taskId reason =
      .emitNow [.controlTaskFinished
        { code := .Unavailable, message := "Not connected" }] ∧
    GatewayClient.resumeInspection s taskId reason =
      .emitNow [.controlTaskFinished
        { code := .Unavailable, message := "Not connected" }] ∧
    GatewayClient.stopInspection s taskId reason =
      .emitNow [.controlTaskFinished
        { code := .Unavailable, message := "Not connected" }] ∧
    GatewayClient.getTaskStatus s taskId =
      .emitNow [.errorOccurred "GetTaskStatus: not connected"] ∧
    GatewayClient.getNavMap s mapId =
      .emitNow [.navMapReceived
        { code := .Unavailable, message := "Not connected" } {}] ∧
    GatewayClient.listCaptures s taskId pointId =
      .emitNow [.capturesReceived
        { code := .Unavailable, message := "Not connected" } []] := by
  refine ⟨?_, ?_, ?_, ?_, ?_, ?_, ?_, ?_, ?_, ?_, ?_⟩ <;>
    simp [GatewayClient.uploadCad, GatewayClient.setInspectionTargets,
      GatewayClient.planInspection, GatewayClient.getPlan,
      GatewayClient.startInspection, GatewayClient.pauseInspection,
      GatewayClient.resumeInspection, GatewayClient.stopInspection,
      GatewayClient.getTaskStatus, GatewayClient.getNavMap,
      GatewayClient.listCaptures, h]

/-- C1 witness: the short-circuit evaluated at the default (no-stub) state
for a representative prefix of the operations. -/
theorem noSession_shortCircuit_witness :
    GatewayClient.uploadCad {} "part.step" =
      .emitNow [.uploadCadFinished
        { code := .Unavailable, message := "Not connected" } ""] ∧
    GatewayClient.getTaskStatus {} "task-1" =
      .emitNow [.errorOccurred "GetTaskStatus: not connected"] :=
  ⟨(noSession_shortCircuit {} rfl "part.step" "m" "op" "tn" "p" "task-1" "r"
      "map" [] {} {} false 0).1,
   (noSession_shortCircuit {} rfl "part.step" "m" "op" "tn" "p" "task-1" "r"
      "map" [] {} {} false 0).2.2.2.2.2.2.2.2.1⟩

/-- C9: after `disconnectFromGateway` the Session is cleared (`isConnected`
false, empty address, no stub), a `connectionStateChanged(false)` emission
happens exactly when the liveness flag was previously true, and a second
`disconnectFromGateway` from the resulting state is safe, changes nothing
and emits nothing. -/
theorem disconnect_idempotent (s : ClientState) :
    GatewayClient.isConnected (GatewayClient.disconnectFromGateway s).1 = false ∧
    GatewayClient.currentAddress (GatewayClient.disconnectFromGateway s).1 = "" ∧
    (GatewayClient.disconnectFromGateway s).1.hasStub = false ∧
    (s.connected = true →
      (GatewayClient.disconnectFromGateway s).2 =
        [.connectionStateChanged false]) ∧
    (s.connected = false → (GatewayClient.disconnectFromGateway s).2 = []) ∧
    GatewayClient.disconnectFromGateway (GatewayClient.disconnectFromGateway s).1 =
      ((GatewayClient.disconnectFromGateway s).1, []) := by
  refine ⟨rfl, rfl, rfl, ?_, ?_, rfl⟩ <;> intro h <;>
    simp [GatewayClient.disconnectFromGateway, h]

/-- C9 witness: evaluated at a live connected state and at the empty state. -/
theorem disconnect_idempotent_witness :
    (GatewayClient.disconnectFromGateway
      { address := "gw:50051", hasStub := true, connected := true }).2 =
      [.connectionStateChanged false] ∧
    (GatewayClient.disconnectFromGateway ({} : ClientState)).2 = [] :=
  ⟨(disconnect_idempotent
      { address := "gw:50051", hasStub := true, connected := true }).2.2.2.1 rfl,
   (disconnect_idempotent ({} : ClientState)).2.2.2.2.1 rfl⟩

/-- C5: a non-OK transport status folds into a `Result` classified exactly
`Internal` carrying the transport's own diagnostic text; an OK status folds
into a `Result` classified `Ok`. -/
theorem fromGrpcStatus_classification (st : GrpcStatus) :
    (st.ok = false →
      fromGrpcStatus st = { code := ErrorCode.Internal, message := st.message }) ∧
    (st.ok = true → (fromGrpcStatus st).code = ErrorCode.Ok) := by
  constructor <;> intro h <;> simp [fromGrpcStatus, h]

/-- C5 witness: evaluated at a concrete failed status and at the OK status. -/
theorem fromGrpcStatus_classification_witness :
    fromGrpcStatus { code := 4, message := "Deadline Exceeded" } =
      { code := ErrorCode.Internal, message := "Deadline Exceeded" } ∧
    (fromGrpcStatus { code := 0, message := "" }).code = ErrorCode.Ok :=
  ⟨(fromGrpcStatus_classification { code := 4, message := "Deadline Exceeded" }).1
     (by decide),
   (fromGrpcStatus_classification { code := 0, message := "" }).2 (by decide)⟩

/-- C6: for each of the three streams, termination with CANCELLED status
surfaces no error notification, while any other non-success termination
surfaces exactly one generic `errorOccurred` notification, whatever the item
notifications were. -/
theorem subscription_termination_errors
    (sysItems : List proto.SystemStateEvent)
    (evItems : List proto.InspectionEvent)
    (mediaId : String) (chunks : List proto.MediaChunk) (st : GrpcStatus) :
    (st.code = grpcCANCELLED →
      (GatewayClient.subscribeSystemStateWorker sysItems st).countP
        isErrorOccurred = 0 ∧
      (GatewayClient.subscribeInspectionEventsWorker evItems st).countP
        isErrorOccurred = 0 ∧
      (GatewayClient.downloadMediaWorker mediaId chunks st).countP
        isErrorOccurred = 0) ∧
    (st.ok = false → st.code ≠ grpcCANCELLED →
      (GatewayClient.subscribeSystemStateWorker sysItems st).countP
        isErrorOccurred = 1 ∧
      (GatewayClient.subscribeInspectionEventsWorker evItems st).countP
        isErrorOccurred = 1 ∧
      (GatewayClient.downloadMediaWorker mediaId chunks st).countP
        isErrorOccurred = 1) := by
  have hmap1 : (sysItems.map (fun ev =>
      GatewayEvent.systemStateReceived (fromProtoTaskStatus ev.status))).countP
      isErrorOccurred = 0 := by
    rw [List.countP_eq_zero]
    intro e he
    obtain ⟨a, _, rfl⟩ := List.mem_map.mp he
    simp [isErrorOccurred]
  have hmap2 : (evItems.map (fun ev =>
      GatewayEvent.inspectionEventReceived (fromProtoInspectionEvent ev))).countP
      isErrorOccurred = 0 := by
    rw [List.countP_eq_zero]
    intro e he
    obtain ⟨a, _, rfl⟩ := List.mem_map.mp he
    simp [isErrorOccurred]
  constructor
  · intro h
    have hok : st.ok = false := by
      simp [GrpcStatus.ok, h, grpcCANCELLED, grpcOK]
    refine ⟨?_, ?_, ?_⟩
    · simp [GatewayClient.subscribeSystemStateWorker, List.countP_append,
        hmap1, h]
    · simp [GatewayClient.subscribeInspectionEventsWorker, List.countP_append,
        hmap2, h]
    · simp [GatewayClient.downloadMediaWorker, hok, h]
  · intro hok hnc
    refine ⟨?_, ?_, ?_⟩
    · simp [GatewayClient.subscribeSystemStateWorker, List.countP_append,
        hmap1, hok, hnc, isErrorOccurred]
    · simp [GatewayClient.subscribeInspectionEventsWorker, List.countP_append,
        hmap2, hok, hnc, isErrorOccurred]
    · simp [GatewayClient.downloadMediaWorker, hok, hnc, isErrorOccurred]

/-- C6 witness: evaluated with concrete items at the CANCELLED status and at
a concrete non-CANCELLED failure status. -/
theorem subscription_termination_errors_witness :
    (GatewayClient.subscribeSystemStateWorker [{}]
      { code := 1, message := "cancelled" }).countP isErrorOccurred = 0 ∧
    (GatewayClient.downloadMediaWorker "m-1" [{ data := [1, 2] }]
      { code := 14, message := "connection refused" }).countP
      isErrorOccurred = 1 :=
  ⟨((subscription_termination_errors [{}] [] "m-1" []
      { code := 1, message := "cancelled" }).1 rfl).1,
   ((subscription_termination_errors [] [] "m-1" [{ data := [1, 2] }]
      { code := 14, message := "connection refused" }).2 (by decide)
      (by decide)).2.2⟩

/-- C7: the media-download worker forwards no per-chunk notification: on a
successful termination its emissions are exactly one `mediaDownloaded`
carrying the concatenation of all received chunks' bytes in receipt order,
and on any non-success termination no `mediaDownloaded` is emitted at all. -/
theorem downloadMedia_assembles_once (mediaId : String)
    (chunks : List proto.MediaChunk) (st : GrpcStatus) :
    (st.ok = true →
      GatewayClient.downloadMediaWorker mediaId chunks st =
        [.mediaDownloaded mediaId ((chunks.map proto.MediaChunk.data).flatten)]) ∧
    (st.ok = false →
      ∀ e ∈ GatewayClient.downloadMediaWorker mediaId chunks st,
        isMediaDownloaded e = false) := by
  constructor
  · intro h
    simp [GatewayClient.downloadMediaWorker, h]
  · intro h e he
    unfold GatewayClient.downloadMediaWorker at he
    rw [if_neg (by simp [h])] at he
    by_cases hc : st.code ≠ grpcCANCELLED
    · rw [if_pos hc] at he
      simp only [List.mem_singleton] at he
      subst he
      rfl
    · rw [if_neg hc] at he
      exact absurd he (List.not_mem_nil e)

/-- C7 witness: evaluated at concrete chunk sequences for a successful and a
failed stream. -/
theorem downloadMedia_assembles_once_witness :
    GatewayClient.downloadMediaWorker "m-9"
      [{ data := [10, 20] }, { data := [] }, { data := [30] }]
      { code := 0, message := "" } =
      [.mediaDownloaded "m-9" [10, 20, 30]] ∧
    (∀ e ∈ GatewayClient.downloadMediaWorker "m-9" [{ data := [10, 20] }]
        { code := 2, message := "broken" },
      isMediaDownloaded e = false) :=
  ⟨(downloadMedia_assembles_once "m-9"
      [{ data := [10, 20] }, { data := [] }, { data := [30] }]
      { code := 0, message := "" }).1 (by decide),
   (downloadMedia_assembles_once "m-9" [{ data := [10, 20] }]
      { code := 2, message := "broken" }).2 (by decide)⟩

/-- Helper: the terminal upload emission is `uploadCadFinished` whichever way
the stream finished. -/
theorem isUploadCadFinished_uploadFinishEvent (st : GrpcStatus)
    (resp : proto.UploadCadResponse) :
    isUploadCadFinished (GatewayClient.uploadFinishEvent st resp) = true := by
  unfold GatewayClient.uploadFinishEvent
  split <;> rfl

/-- Helper: the terminal upload emission is never a progress emission. -/
theorem progressPct_uploadFinishEvent (st : GrpcStatus)
    (resp : proto.UploadCadResponse) :
    progressPct (GatewayClient.uploadFinishEvent st resp) = none := by
  unfold GatewayClient.uploadFinishEvent
  split <;> rfl

/-- Helper: every run of the upload chunk loop emits exactly one
`uploadCadFinished` outcome, whatever the reads, writes, size and status. -/
theorem uploadCadChunkLoop_one_finished (writeOk : Nat → Bool) (total : Nat)
    (st : GrpcStatus) (resp : proto.UploadCadResponse) :
    ∀ (reads : List Nat) (bytesSent chunkIndex : Nat) (lastPercent : Int),
      (GatewayClient.uploadCadChunkLoop writeOk total st resp reads bytesSent
        chunkIndex lastPercent).countP isUploadCadFinished = 1 := by
  intro reads
  induction reads with
  | nil =>
    intro bs ci lp
    simp [GatewayClient.uploadCadChunkLoop, List.countP_cons,
      isUploadCadFinished_uploadFinishEvent]
  | cons sz rest ih =>
    intro bs ci lp
    by_cases hsz : sz = 0
    · simp [GatewayClient.uploadCadChunkLoop, hsz, List.countP_cons,
        isUploadCadFinished_uploadFinishEvent]
    · by_cases hw : writeOk ci = false
      · simp [GatewayClient.uploadCadChunkLoop, hsz, hw, List.countP_cons,
          isUploadCadFinished]
      · by_cases htot : 0 < total
        · by_cases hne : ((bs : Int) + (sz : Int)) * 100 / (total : Int) = lp
          · simp [GatewayClient.uploadCadChunkLoop, hsz, hw, htot, hne, ih]
          · simp [GatewayClient.uploadCadChunkLoop, hsz, hw, htot, hne,
              List.countP_cons, isUploadCadFinished, ih]
        · simp [GatewayClient.uploadCadChunkLoop, hsz, hw, htot, ih]

/-- C2 counterexample: a first read that returns empty (on an openable file
of size 100) does not produce a distinct failure Result — the chunk loop
breaks and the single outcome comes from the stream finish, here a plain
success, which is neither `InvalidArgument` nor `Internal`. -/
theorem uploadCad_emptyRead_counterexample :
    GatewayClient.uploadCadWorker "part.step" true [0] (fun _ => true) 100 {}
        { result := { code := 1 }, model_id := "model-7" } =
      [.uploadCadFinished { code := .Ok } "model-7"] ∧
    ErrorCode.Ok ≠ ErrorCode.InvalidArgument ∧
    ErrorCode.Ok ≠ ErrorCode.Internal :=
  ⟨rfl, by decide, by decide⟩

/-- C2 (amended): the two local failure modes of the upload worker each
produce their own distinct failure Result with no partial success — an
unopenable file yields `InvalidArgument`, a broken stream write yields
`Internal` — and in every run exactly one `uploadCadFinished` outcome is
delivered; a read that returns empty is not a distinct failure: it ends the
chunk loop and the single outcome is whatever the stream finish produces. -/
theorem uploadCad_localFailures (path : String) (reads : List Nat)
    (writeOk : Nat → Bool) (total : Nat) (st : GrpcStatus)
    (resp : proto.UploadCadResponse) :
    (GatewayClient.uploadCadWorker path false reads writeOk total st resp =
      [.uploadCadFinished
        { code := .InvalidArgument, message := "Cannot open file: " ++ path }
        ""]) ∧
    (∀ sz rest, sz ≠ 0 → writeOk 0 = false →
      GatewayClient.uploadCadWorker path true (sz :: rest) writeOk total st
        resp =
        [.uploadCadFinished
          { code := .Internal, message := "Stream write failed at chunk 0" }
          ""]) ∧
    (∀ rest,
      GatewayClient.uploadCadWorker path true (0 :: rest) writeOk total st
        resp = [GatewayClient.uploadFinishEvent st resp]) ∧
    (∀ canOpen,
      (GatewayClient.uploadCadWorker path canOpen reads writeOk total st
        resp).countP isUploadCadFinished = 1) := by
  refine ⟨rfl, ?_, fun rest => rfl, ?_⟩
  · intro sz rest hsz hw
    unfold GatewayClient.uploadCadWorker
    rw [if_neg (by simp)]
    unfold GatewayClient.uploadCadChunkLoop
    rw [if_neg hsz, if_pos hw]
    rfl
  · intro canOpen
    cases canOpen with
    | false =>
      simp [GatewayClient.uploadCadWorker, List.countP_cons, isUploadCadFinished]
    | true =>
      unfold GatewayClient.uploadCadWorker
      rw [if_neg (by simp)]
      exact uploadCadChunkLoop_one_finished writeOk total st resp reads 0 0 (-1)

/-- C2 witness: the two failure modes evaluated at concrete runs. -/
theorem uploadCad_localFailures_witness :
    GatewayClient.uploadCadWorker "missing.step" false [] (fun _ => true) 0 {}
        {} =
      [.uploadCadFinished
        { code := .InvalidArgument,
          message := "Cannot open file: missing.step" } ""] ∧
    GatewayClient.uploadCadWorker "part.step" true [64, 64] (fun _ => false)
        128 {} {} =
      [.uploadCadFinished
        { code := .Internal, message := "Stream write failed at chunk 0" }
        ""] :=
  ⟨(uploadCad_localFailures "missing.step" [] (fun _ => true) 0 {} {}).1,
   (uploadCad_localFailures "part.step" [64] (fun _ => false) 128 {} {}).2.1
     64 [64] (by decide) rfl⟩

/-- Helper: with a positive total, the progress percentages emitted by the
chunk loop form a strictly increasing sequence, each strictly above the
incoming `lastPercent` whenever that is at most the percentage already
reached. -/
theorem uploadCadChunkLoop_progress_strictMono (writeOk : Nat → Bool)
    (total : Nat) (st : GrpcStatus) (resp : proto.UploadCadResponse)
    (htot : 0 < total) :
    ∀ (reads : List Nat) (bytesSent chunkIndex : Nat) (lastPercent : Int),
      lastPercent ≤ ((bytesSent * 100 / total : Nat) : Int) →
      List.Chain' (· < ·)
        ((GatewayClient.uploadCadChunkLoop writeOk total st resp reads
          bytesSent chunkIndex lastPercent).filterMap progressPct) ∧
      ∀ x ∈ (GatewayClient.uploadCadChunkLoop writeOk total st resp reads
          bytesSent chunkIndex lastPercent).filterMap progressPct,
        lastPercent < (x : Int) := by
  intro reads
  induction reads with
  | nil =>
    intro bs ci lp hlp
    constructor
    · simp [GatewayClient.uploadCadChunkLoop, progressPct_uploadFinishEvent]
    · intro x hx
      simp [GatewayClient.uploadCadChunkLoop,
        progressPct_uploadFinishEvent] at hx
  | cons sz rest ih =>
    intro bs ci lp hlp
    by_cases hsz : sz = 0
    · constructor
      · simp [GatewayClient.uploadCadChunkLoop, hsz,
          progressPct_uploadFinishEvent]
      · intro x hx
        simp [GatewayClient.uploadCadChunkLoop, hsz,
          progressPct_uploadFinishEvent] at hx
    · by_cases hw : writeOk ci = false
      · constructor
        · simp [GatewayClient.uploadCadChunkLoop, hsz, hw, progressPct]
        · intro x hx
          simp [GatewayClient.uploadCadChunkLoop, hsz, hw, progressPct] at hx
      · have hpct_le : lp ≤ (((bs + sz) * 100 / total : Nat) : Int) := by
          refine le_trans hlp ?_
          exact_mod_cast Nat.div_le_div_right
            (Nat.mul_le_mul_right 100 (Nat.le_add_right bs sz))
        have hcast : (((bs + sz) * 100 / total : Nat) : Int) =
            ((bs : Int) + (sz : Int)) * 100 / (total : Int) := by
          simp
        by_cases hne : ((bs : Int) + (sz : Int)) * 100 / (total : Int) = lp
        · have hlist :
            (GatewayClient.uploadCadChunkLoop writeOk total st resp
              (sz :: rest) bs ci lp).filterMap progressPct =
            (GatewayClient.uploadCadChunkLoop writeOk total st resp rest
              (bs + sz) (ci + 1) lp).filterMap progressPct := by
            simp [GatewayClient.uploadCadChunkLoop, hsz, hw, htot, hne]
          have ihp := ih (bs + sz) (ci + 1) lp
            (le_trans (le_of_eq hne.symm) (le_of_eq hcast.symm))
          rw [hlist]
          exact ihp
        · have hlist :
            (GatewayClient.uploadCadChunkLoop writeOk total st resp
              (sz :: rest) bs ci lp).filterMap progressPct =
            ((bs + sz) * 100 / total) ::
              (GatewayClient.uploadCadChunkLoop writeOk total st resp rest
                (bs + sz) (ci + 1)
                (((bs + sz) * 100 / total : Nat) : Int)).filterMap
                progressPct := by
            simp [GatewayClient.uploadCadChunkLoop, hsz, hw, htot, hne,
              progressPct]
          have hneC : (((bs + sz) * 100 / total : Nat) : Int) ≠ lp := by
            rw [hcast]
            exact hne
          have ihp := ih (bs + sz) (ci + 1)
            (((bs + sz) * 100 / total : Nat) : Int) (le_refl _)
          constructor
          · rw [hlist]
            refine List.chain'_cons'.mpr ⟨?_, ihp.1⟩
            intro y hy
            have hby := ihp.2 y (List.mem_of_mem_head? hy)
            exact_mod_cast hby
          · rw [hlist]
            intro x hx
            rcases List.mem_cons.mp hx with hx | hx
            · subst hx
              exact lt_of_le_of_ne hpct_le (Ne.symm hneC)
            · exact lt_of_le_of_lt hpct_le (ihp.2 x hx)

/-- C8: during an upload with positive total size, the sequence of delivered
progress percentages — floor(bytesSent * 100 / total) after each successfully
written chunk, emitted only on change — is non-decreasing and has no two
equal consecutive values. -/
theorem uploadCad_progress_monotone (path : String) (canOpen : Bool)
    (reads : List Nat) (writeOk : Nat → Bool) (total : Nat) (st : GrpcStatus)
    (resp : proto.UploadCadResponse) (htot : 0 < total) :
    List.Chain' (· ≤ ·)
      ((GatewayClient.uploadCadWorker path canOpen reads writeOk total st
        resp).filterMap progressPct) ∧
    List.Chain' (· ≠ ·)
      ((GatewayClient.uploadCadWorker path canOpen reads writeOk total st
        resp).filterMap progressPct) := by
  have key : List.Chain' (· < ·)
      ((GatewayClient.uploadCadWorker path canOpen reads writeOk total st
        resp).filterMap progressPct) := by
    cases canOpen with
    | false => simp [GatewayClient.uploadCadWorker, progressPct]
    | true =>
      unfold GatewayClient.uploadCadWorker
      rw [if_neg (by simp)]
      refine (uploadCadChunkLoop_progress_strictMono writeOk total st resp
        htot reads 0 0 (-1) ?_).1
      norm_num
  exact ⟨List.Chain'.imp (fun a b hab => le_of_lt hab) key,
    List.Chain'.imp (fun a b hab => ne_of_lt hab) key⟩

/-- C8 witness: the progress chain evaluated on a concrete three-chunk
upload of a 200-byte file. -/
theorem uploadCad_progress_monotone_witness :
    0 < 200 ∧
    (List.Chain' (· ≤ ·)
      ((GatewayClient.uploadCadWorker "part.step" true [64, 64, 64]
        (fun _ => true) 200 {} {}).filterMap progressPct) ∧
    List.Chain' (· ≠ ·)
      ((GatewayClient.uploadCadWorker "part.step" true [64, 64, 64]
        (fun _ => true) 200 {} {}).filterMap progressPct)) :=
  ⟨by decide,
   uploadCad_progress_monotone "part.step" true [64, 64, 64] (fun _ => true)
     200 {} {} (by decide)⟩

end hmi
